import Mathlib

/-!
# Palloc: shallow embedding and verification

A shallow embedding of the Palloc allocator family (bump arena and
size-classed dynamic slab) together with proofs of the specified
properties.  The `arena` definitions follow `src/arena.cpp`; the
`dynamic_slab` definitions follow `src/dynamic_slab.cpp`, executed
sequentially (one operation at a time, the grow mutex is a no-op and
the double-checked second traversal runs on the state the first one
left).  The `slab` component (`slab.h`) is not part of the sources, so
it is modelled from the specification, as flagged on each definition.
-/

namespace Palloc

/-- `size_t` sizes are naturals; `SIZE_MAX` is `(size_t)-1` at 64 bits. -/
def SIZE_MAX : Nat := 2 ^ 64 - 1

/-! ## Size classes (modelled from the spec: `slab.h` is absent from the sources) -/

/-- Modelled from the spec: the ordered size-class sequence
`S = [8, 16, 32, 64, 128, 256, 512, 1024, 2048, 4096]` (the recommended
set, `slab.h` being absent from the sources). -/
def sizeClasses : List Nat := [8, 16, 32, 64, 128, 256, 512, 1024, 2048, 4096]

/-- The largest size class `s_{k-1}`. -/
def maxSizeClass : Nat := 4096

/-- Modelled from the spec: `size_to_index(r)` returns the smallest `i`
with `s_i ≥ r`, or the sentinel "no class" (`none`, the C++ `(size_t)-1`)
when `r == 0` or `r > s_{k-1}`. -/
def size_to_index (r : Nat) : Option Nat :=
  if r = 0 then none
  else if r ≤ 8 then some 0
  else if r ≤ 16 then some 1
  else if r ≤ 32 then some 2
  else if r ≤ 64 then some 3
  else if r ≤ 128 then some 4
  else if r ≤ 256 then some 5
  else if r ≤ 512 then some 6
  else if r ≤ 1024 then some 7
  else if r ≤ 2048 then some 8
  else if r ≤ 4096 then some 9
  else none

/-- Modelled from the spec: `index_to_size_class(i) = s_i`. -/
def index_to_size_class (i : Nat) : Nat :=
  sizeClasses.getD i 0

/-! ## Slab (modelled from the spec: `slab.h` / its implementation are
absent from the sources; only what `dynamic_slab.cpp` calls is needed:
`alloc`, `free`, `owns`, and construction at a given scale). -/

/-- A non-null block pointer: identified by the slab that carved it, the
size class it belongs to, and a block index inside that class's pool. -/
structure Ptr where
  sid : Nat
  cls : Nat
  blk : Nat
  deriving DecidableEq, Repr

/-- Modelled from the spec: per-class baseline block counts (`baseline_i`),
a fixed tuning constant per class left open by the sources; any positive
choice works for the properties proved here. -/
def baselines : List Nat := [512, 512, 256, 256, 128, 128, 64, 64, 32, 32]

/-- Modelled from the spec: a slab owns one pool per size class; only the
per-class free-block count and an identity (for `owns`) are observable
through the `dynamic_slab` interface. -/
structure slab where
  sid : Nat
  freeCnt : List Nat
  deriving DecidableEq, Repr

namespace slab

/-- Modelled from the spec: a fresh slab at integer `scale` (the value the
`dynamic_slab` passes down, a `size_t`): the pool for class `i` holds
`baseline_i · scale` blocks. -/
def fresh (scale : Nat) (sid : Nat) : slab :=
  ⟨sid, baselines.map (fun b => b * scale)⟩

/-- Modelled from the spec: `slab::alloc(size)` fails on `size == 0` or
`size > s_{k-1}`; otherwise it serves a block of class `size_to_index size`
when that class still has a free block, else fails. Failure leaves the
slab unchanged. -/
def alloc (s : slab) (size : Nat) : Option Ptr × slab :=
  match size_to_index size with
  | none => (none, s)
  | some i =>
    if s.freeCnt.getD i 0 = 0 then (none, s)
    else (some ⟨s.sid, i, s.freeCnt.getD i 0⟩,
          ⟨s.sid, s.freeCnt.set i (s.freeCnt.getD i 0 - 1)⟩)

/-- Modelled from the spec: `slab::owns(p)` — containment in this slab's
pools, here pointer identity of the carving slab. -/
def owns (s : slab) (p : Ptr) : Bool :=
  p.sid = s.sid

/-- Modelled from the spec: `slab::free(p, size)` returns the block to the
pool of class `size_to_index size` (through the TLC, invisible at this
level); an invalid size routes nowhere. -/
def free (s : slab) (_p : Ptr) (size : Nat) : slab :=
  match size_to_index size with
  | none => s
  | some i => ⟨s.sid, s.freeCnt.set i (s.freeCnt.getD i 0 + 1)⟩

end slab

/-! ## DynamicSlab (from `src/dynamic_slab.cpp` / `include/dynamic_slab.h`)

The list of slab nodes is kept head-first: prepending a node writes its
`next` to the old head and publishes it, which in a sequential embedding
is consing onto the list.  `mmap` success/failure inside `create_node` is
an input of each growing operation (`mmapOk`).  Fresh `mmap` addresses
are modelled by a counter `nextId` handing out slab identities. -/

/-- State of an `AL::dynamic_slab`: the `size_t scale` member, the slab
node list (head first), the atomic `node_count`, and the fresh-identity
counter standing in for `mmap` return addresses. -/
structure dynamic_slab where
  scale : Nat
  nodes : List slab
  node_count : Nat
  nextId : Nat
  deriving DecidableEq, Repr

/-- The C++ conversion of the constructor's `double` argument into the
`size_t scale` member (`dynamic_slab.h` declares the member and the
constructor parameter as `size_t` while `dynamic_slab.cpp` takes
`double s`): truncation toward zero; a negative value in `(-1, 0]`
converts to `0` (anything at or below `-1` is undefined behaviour in
C++ and is mapped to `0` here as well). -/
def size_t_of_double (s : ℚ) : Nat := (⌊s⌋).toNat

namespace dynamic_slab

/-- `dynamic_slab::dynamic_slab(double s)`: store the (converted) scale,
then `create_node(nullptr)`; on success publish it as head and set
`node_count` to 1, on `mmap` failure leave the empty list. -/
def init (s : ℚ) (mmapOk : Bool) : dynamic_slab :=
  let sc := size_t_of_double s
  if mmapOk then ⟨sc, [slab.fresh sc 0], 1, 1⟩ else ⟨sc, [], 0, 0⟩

/-- The traversal loop of `palloc`: `for (node = head; node; node = node->next)`
try `node->value.alloc(size)`, returning the first non-null result; the
traversed prefix keeps its (possibly updated) slabs in place. -/
def tryAlloc : List slab → Nat → Option Ptr × List slab
  | [], _ => (none, [])
  | n :: rest, size =>
    match n.alloc size with
    | (some p, n') => (some p, n' :: rest)
    | (none, n') =>
      let r := tryAlloc rest size
      (r.1, n' :: r.2)

/-- `dynamic_slab::palloc(size)`: reject `0` and `(size_t)-1`; traverse;
on full miss, under the grow mutex, traverse again (double-checked), then
`create_node(head)` (which may fail, returning null with no state
change), publish the new head, bump `node_count`, and serve from the new
slab.  Sequential semantics: the mutex is uncontended, so the second
traversal runs on the state the first left. -/
def palloc (st : dynamic_slab) (size : Nat) (mmapOk : Bool) :
    Option Ptr × dynamic_slab :=
  if size = 0 ∨ size = SIZE_MAX then (none, st)
  else
    match tryAlloc st.nodes size with
    | (some p, nodes') => (some p, { st with nodes := nodes' })
    | (none, nodes1) =>
      match tryAlloc nodes1 size with
      | (some p, nodes') => (some p, { st with nodes := nodes' })
      | (none, nodes2) =>
        if mmapOk then
          let r := (slab.fresh st.scale st.nextId).alloc size
          (r.1, { st with
                    nodes := r.2 :: nodes2,
                    node_count := st.node_count + 1,
                    nextId := st.nextId + 1 })
        else (none, { st with nodes := nodes2 })

/-- `dynamic_slab::calloc(size)`: `palloc`, then when the result is
non-null and `slab::size_to_index(size)` is not the sentinel, zero
`slab::index_to_size_class(index)` bytes.  The third component records
how many bytes were zeroed by the `memset`. -/
def calloc (st : dynamic_slab) (size : Nat) (mmapOk : Bool) :
    Option Ptr × dynamic_slab × Nat :=
  let r := palloc st size mmapOk
  match r.1 with
  | none => (none, r.2, 0)
  | some p =>
    match size_to_index size with
    | none => (some p, r.2, 0)
    | some i => (some p, r.2, index_to_size_class i)

/-- The traversal loop of `free`: the first node with `owns(ptr)` absorbs
the free via its slab's `free`; later nodes are not visited. -/
def freeNodes : List slab → Ptr → Nat → List slab
  | [], _, _ => []
  | n :: rest, p, size =>
    if n.owns p then n.free p size :: rest
    else n :: freeNodes rest p size

/-- `dynamic_slab::free(ptr, size)`: return immediately on `nullptr`,
`size == 0` or `size == (size_t)-1`; otherwise route to the first owning
node (no owner: silently discard). -/
def free (st : dynamic_slab) (ptr : Option Ptr) (size : Nat) : dynamic_slab :=
  match ptr with
  | none => st
  | some p =>
    if size = 0 ∨ size = SIZE_MAX then st
    else { st with nodes := freeNodes st.nodes p size }

/-- `dynamic_slab::get_slab_count()`: read the node counter. -/
def get_slab_count (st : dynamic_slab) : Nat := st.node_count

/-- One mutating API call on a live `dynamic_slab`, with the `mmap`
outcome of a potential grow as part of the input. -/
inductive Op
  | palloc (size : Nat) (mmapOk : Bool)
  | calloc (size : Nat) (mmapOk : Bool)
  | free (ptr : Option Ptr) (size : Nat)
  deriving DecidableEq, Repr

/-- Execute one operation, keeping the resulting state. -/
def step (st : dynamic_slab) : Op → dynamic_slab
  | .palloc size ok => (palloc st size ok).2
  | .calloc size ok => (calloc st size ok).2.1
  | .free p size => free st p size

/-- Execute a sequence of operations. -/
def run (st : dynamic_slab) : List Op → dynamic_slab
  | [] => st
  | op :: ops => run (step st op) ops

end dynamic_slab

/-! ## Arena (from `src/arena.cpp` / `include/arena.h`) -/

/-- State of an `arena`: the `void* memory` pointer (modelled as an
optional base address), the cursor `used`, and `capacity`. -/
structure arena where
  memory : Option Nat
  used : Nat
  capacity : Nat
  deriving DecidableEq, Repr

namespace arena

/-- `arena::arena()`: `memory(nullptr), used(0), capacity(0)`. -/
def init : arena := ⟨none, 0, 0⟩

/-- `arena::alloc(length)` as written in `src/arena.cpp`: `if (length == 0)
return nullptr; return nullptr;` — it allocates nothing and never touches
the cursor. -/
def alloc (a : arena) (length : Nat) : Option Nat × arena :=
  if length = 0 then (none, a) else (none, a)

/-- `arena::reset()`: `used = 0; return 0;`. -/
def reset (a : arena) : Int × arena := (0, { a with used := 0 })

/-- `arena::get_used()`. -/
def get_used (a : arena) : Nat := a.used

/-- `arena::get_capacity()`. -/
def get_capacity (a : arena) : Nat := a.capacity

end arena

/-! ## Helper lemmas -/

/-- Sizes above the largest class have no size class. -/
theorem size_to_index_eq_none_of_gt (size : Nat) (h : maxSizeClass < size) :
    size_to_index size = none := by
  unfold maxSizeClass at h
  unfold size_to_index
  rw [if_neg (by omega : ¬ size = 0), if_neg (by omega : ¬ size ≤ 8),
      if_neg (by omega : ¬ size ≤ 16), if_neg (by omega : ¬ size ≤ 32),
      if_neg (by omega : ¬ size ≤ 64), if_neg (by omega : ¬ size ≤ 128),
      if_neg (by omega : ¬ size ≤ 256), if_neg (by omega : ¬ size ≤ 512),
      if_neg (by omega : ¬ size ≤ 1024), if_neg (by omega : ¬ size ≤ 2048),
      if_neg (by omega : ¬ size ≤ 4096)]

/-- A size with a class lies in `(0, s_{k-1}]` and its index is at most 9. -/
theorem size_to_index_some_facts (size i : Nat)
    (h : size_to_index size = some i) :
    i ≤ 9 ∧ 0 < size ∧ size ≤ maxSizeClass := by
  unfold maxSizeClass
  unfold size_to_index at h
  by_cases h0 : size = 0
  · rw [if_pos h0] at h; cases h
  rw [if_neg h0] at h
  by_cases h1 : size ≤ 8
  · rw [if_pos h1] at h; injection h with h'; omega
  rw [if_neg h1] at h
  by_cases h2 : size ≤ 16
  · rw [if_pos h2] at h; injection h with h'; omega
  rw [if_neg h2] at h
  by_cases h3 : size ≤ 32
  · rw [if_pos h3] at h; injection h with h'; omega
  rw [if_neg h3] at h
  by_cases h4 : size ≤ 64
  · rw [if_pos h4] at h; injection h with h'; omega
  rw [if_neg h4] at h
  by_cases h5 : size ≤ 128
  · rw [if_pos h5] at h; injection h with h'; omega
  rw [if_neg h5] at h
  by_cases h6 : size ≤ 256
  · rw [if_pos h6] at h; injection h with h'; omega
  rw [if_neg h6] at h
  by_cases h7 : size ≤ 512
  · rw [if_pos h7] at h; injection h with h'; omega
  rw [if_neg h7] at h
  by_cases h8 : size ≤ 1024
  · rw [if_pos h8] at h; injection h with h'; omega
  rw [if_neg h8] at h
  by_cases h9 : size ≤ 2048
  · rw [if_pos h9] at h; injection h with h'; omega
  rw [if_neg h9] at h
  by_cases h10 : size ≤ 4096
  · rw [if_pos h10] at h; injection h with h'; omega
  rw [if_neg h10] at h
  cases h

/-- A slab allocation with no valid size class fails and changes nothing. -/
theorem slab.alloc_invalid (s : slab) (size : Nat)
    (h : size_to_index size = none) : s.alloc size = (none, s) := by
  simp [slab.alloc, h]

/-- A failed slab allocation leaves the slab unchanged. -/
theorem slab.alloc_none_frame (s : slab) (size : Nat)
    (h : (s.alloc size).1 = none) : (s.alloc size).2 = s := by
  cases hx : size_to_index size with
  | none => simp [slab.alloc, hx]
  | some i =>
    by_cases hf : s.freeCnt[i]?.getD 0 = 0
    · simp [slab.alloc, hx, List.getD, hf]
    · simp [slab.alloc, hx, List.getD, hf] at h

/-- A fresh slab at a positive (integer) scale has free blocks in every
class. -/
theorem slab.fresh_getD_ne_zero (scale sid i : Nat) (hs : 1 ≤ scale)
    (hi : i ≤ 9) : (slab.fresh scale sid).freeCnt.getD i 0 ≠ 0 := by
  unfold slab.fresh baselines
  interval_cases i <;> simp <;> omega

/-- If every slab of the list fails to allocate, the traversal fails and
returns the list unchanged. -/
theorem tryAlloc_none (size : Nat) :
    ∀ ns : List slab, (∀ s ∈ ns, (s.alloc size).1 = none) →
      dynamic_slab.tryAlloc ns size = (none, ns) := by
  intro ns
  induction ns with
  | nil => intro _; rfl
  | cons n rest ih =>
    intro h
    have hn : (n.alloc size).1 = none := h n (List.mem_cons_self n rest)
    have hframe := slab.alloc_none_frame n size hn
    have hrest := ih (fun s hs => h s (List.mem_cons_of_mem n hs))
    rcases ha : n.alloc size with ⟨o, n'⟩
    rw [ha] at hn hframe
    simp at hn hframe
    subst hn
    unfold dynamic_slab.tryAlloc
    rw [ha, hrest, hframe]

/-- If no valid class exists for `size`, the traversal fails and returns
the list unchanged. -/
theorem tryAlloc_invalid (size : Nat) (ns : List slab)
    (h : size_to_index size = none) :
    dynamic_slab.tryAlloc ns size = (none, ns) :=
  tryAlloc_none size ns (fun s _ => by rw [slab.alloc_invalid s size h])

/-- The traversal returns the result of the first slab that allocates:
slabs before it all fail (and are unchanged), slabs after it are not
visited. -/
theorem tryAlloc_hit (size : Nat) (p : Ptr) (n n' : slab) :
    ∀ pre post : List slab, (∀ s ∈ pre, (s.alloc size).1 = none) →
      n.alloc size = (some p, n') →
      dynamic_slab.tryAlloc (pre ++ n :: post) size = (some p, pre ++ n' :: post) := by
  intro pre
  induction pre with
  | nil =>
    intro post _ hn
    simp [dynamic_slab.tryAlloc, hn]
  | cons m rest ih =>
    intro post hpre hn
    have hm : (m.alloc size).1 = none := hpre m (List.mem_cons_self m rest)
    have hmf := slab.alloc_none_frame m size hm
    rcases ha : m.alloc size with ⟨o, m'⟩
    rw [ha] at hm hmf
    simp only at hm hmf
    subst hm
    rw [hmf] at ha
    have hr := ih post (fun s hs => hpre s (List.mem_cons_of_mem m hs)) hn
    simp [dynamic_slab.tryAlloc, ha, hr]

/-- A size in `(0, s_{k-1}]` always has a size class. -/
theorem size_to_index_exists (size : Nat) (h0 : 0 < size)
    (h1 : size ≤ maxSizeClass) : ∃ i, size_to_index size = some i := by
  unfold maxSizeClass at h1
  unfold size_to_index
  rw [if_neg (by omega : ¬ size = 0)]
  by_cases c1 : size ≤ 8
  · exact ⟨0, by rw [if_pos c1]⟩
  rw [if_neg c1]
  by_cases c2 : size ≤ 16
  · exact ⟨1, by rw [if_pos c2]⟩
  rw [if_neg c2]
  by_cases c3 : size ≤ 32
  · exact ⟨2, by rw [if_pos c3]⟩
  rw [if_neg c3]
  by_cases c4 : size ≤ 64
  · exact ⟨3, by rw [if_pos c4]⟩
  rw [if_neg c4]
  by_cases c5 : size ≤ 128
  · exact ⟨4, by rw [if_pos c5]⟩
  rw [if_neg c5]
  by_cases c6 : size ≤ 256
  · exact ⟨5, by rw [if_pos c6]⟩
  rw [if_neg c6]
  by_cases c7 : size ≤ 512
  · exact ⟨6, by rw [if_pos c7]⟩
  rw [if_neg c7]
  by_cases c8 : size ≤ 1024
  · exact ⟨7, by rw [if_pos c8]⟩
  rw [if_neg c8]
  by_cases c9 : size ≤ 2048
  · exact ⟨8, by rw [if_pos c9]⟩
  rw [if_neg c9]
  exact ⟨9, by rw [if_pos (by omega : size ≤ 4096)]⟩

/-- A fresh slab at a positive (integer) scale serves any size in
`(0, s_{k-1}]`. -/
theorem slab.fresh_alloc_isSome (scale sid size : Nat) (hs : 1 ≤ scale)
    (h0 : 0 < size) (h1 : size ≤ maxSizeClass) :
    ((slab.fresh scale sid).alloc size).1.isSome = true := by
  obtain ⟨i, hi⟩ := size_to_index_exists size h0 h1
  have hi9 := (size_to_index_some_facts size i hi).1
  have hnz := slab.fresh_getD_ne_zero scale sid i hs hi9
  simp [List.getD] at hnz
  simp [slab.alloc, hi, List.getD, hnz]

/-- If no slab in the list owns the pointer, the free traversal changes
nothing. -/
theorem freeNodes_no_owner (p : Ptr) (size : Nat) :
    ∀ ns : List slab, (∀ s ∈ ns, s.owns p = false) →
      dynamic_slab.freeNodes ns p size = ns := by
  intro ns
  induction ns with
  | nil => intro _; rfl
  | cons n rest ih =>
    intro h
    have hn : n.owns p = false := h n (List.mem_cons_self n rest)
    have hrest := ih (fun s hs => h s (List.mem_cons_of_mem n hs))
    simp [dynamic_slab.freeNodes, hn, hrest]

/-- The free traversal hands the pointer to the first owning slab and
leaves every other node alone. -/
theorem freeNodes_first_owner (p : Ptr) (size : Nat) (n : slab) :
    ∀ pre post : List slab, (∀ s ∈ pre, s.owns p = false) →
      n.owns p = true →
      dynamic_slab.freeNodes (pre ++ n :: post) p size =
        pre ++ n.free p size :: post := by
  intro pre
  induction pre with
  | nil =>
    intro post _ hn
    simp [dynamic_slab.freeNodes, hn]
  | cons m rest ih =>
    intro post hpre hn
    have hm : m.owns p = false := hpre m (List.mem_cons_self m rest)
    have hr := ih post (fun s hs => hpre s (List.mem_cons_of_mem m hs)) hn
    simp [dynamic_slab.freeNodes, hm, hr]

/-- `palloc` never decreases the node counter. -/
theorem palloc_node_count_le (st : dynamic_slab) (size : Nat) (ok : Bool) :
    st.node_count ≤ (dynamic_slab.palloc st size ok).2.node_count := by
  unfold dynamic_slab.palloc
  by_cases h : size = 0 ∨ size = SIZE_MAX
  · rw [if_pos h]
  · rw [if_neg h]
    rcases h1 : dynamic_slab.tryAlloc st.nodes size with ⟨o1, ns1⟩
    cases o1 with
    | some p => simp
    | none =>
      rcases h2 : dynamic_slab.tryAlloc ns1 size with ⟨o2, ns2⟩
      cases o2 with
      | some p => simp [h2]
      | none =>
        cases ok with
        | true => simp [h2]
        | false => simp [h2]

/-- `calloc`'s resulting state is `palloc`'s resulting state. -/
theorem calloc_state_eq (st : dynamic_slab) (size : Nat) (ok : Bool) :
    (dynamic_slab.calloc st size ok).2.1 = (dynamic_slab.palloc st size ok).2 := by
  unfold dynamic_slab.calloc
  rcases hp : dynamic_slab.palloc st size ok with ⟨o, st2⟩
  cases o with
  | none => simp [hp]
  | some p =>
    cases hx : size_to_index size with
    | none => simp [hp, hx]
    | some i => simp [hp, hx]

/-- `free` never changes the node counter. -/
theorem free_node_count_eq (st : dynamic_slab) (ptr : Option Ptr) (size : Nat) :
    (dynamic_slab.free st ptr size).node_count = st.node_count := by
  cases ptr with
  | none => rfl
  | some p =>
    simp only [dynamic_slab.free]
    by_cases h : size = 0 ∨ size = SIZE_MAX
    · rw [if_pos h]
    · rw [if_neg h]

/-- A single operation never decreases the node counter. -/
theorem step_node_count_le (st : dynamic_slab) (op : dynamic_slab.Op) :
    st.node_count ≤ (dynamic_slab.step st op).node_count := by
  cases op with
  | palloc size ok => exact palloc_node_count_le st size ok
  | calloc size ok =>
    show st.node_count ≤ (dynamic_slab.calloc st size ok).2.1.node_count
    rw [calloc_state_eq]
    exact palloc_node_count_le st size ok
  | free p size =>
    show st.node_count ≤ (dynamic_slab.free st p size).node_count
    rw [free_node_count_eq]

/-! ## Claim theorems -/

/-- Claim C1: for a size in `(0, s_{k-1}]`, `palloc` returns the result of
the first slab on the list whose `alloc` is non-null, touching only that
node; when every existing slab fails, it creates a new slab node at the
constructor's stored scale, prepends it to the old head, bumps the node
counter, and serves the allocation from that new slab (in particular the
new slab does serve it whenever the stored scale is at least 1). -/
theorem palloc_first_fit_or_grow (st : dynamic_slab) (size : Nat) (ok : Bool)
    (h0 : 0 < size) (h1 : size ≤ maxSizeClass) :
    (∀ pre n post p n', st.nodes = pre ++ n :: post →
        (∀ s ∈ pre, (s.alloc size).1 = none) →
        n.alloc size = (some p, n') →
        dynamic_slab.palloc st size ok =
          (some p, { st with nodes := pre ++ n' :: post })) ∧
    ((∀ s ∈ st.nodes, (s.alloc size).1 = none) →
        dynamic_slab.palloc st size true =
          (((slab.fresh st.scale st.nextId).alloc size).1,
           { st with
               nodes := ((slab.fresh st.scale st.nextId).alloc size).2 :: st.nodes,
               node_count := st.node_count + 1,
               nextId := st.nextId + 1 }) ∧
        (1 ≤ st.scale →
          (dynamic_slab.palloc st size true).1.isSome = true)) := by
  have hmax : maxSizeClass < SIZE_MAX := by unfold maxSizeClass SIZE_MAX; norm_num
  have hne : ¬(size = 0 ∨ size = SIZE_MAX) := by omega
  constructor
  · intro pre n post p n' hnodes hpre hn
    have ht := tryAlloc_hit size p n n' pre post hpre hn
    simp [dynamic_slab.palloc, hne, hnodes, ht]
  · intro hmiss
    have ht := tryAlloc_none size st.nodes hmiss
    have hgrow : dynamic_slab.palloc st size true =
        (((slab.fresh st.scale st.nextId).alloc size).1,
         { st with
             nodes := ((slab.fresh st.scale st.nextId).alloc size).2 :: st.nodes,
             node_count := st.node_count + 1,
             nextId := st.nextId + 1 }) := by
      simp [dynamic_slab.palloc, hne, ht]
    refine ⟨hgrow, fun hs => ?_⟩
    rw [hgrow]
    exact slab.fresh_alloc_isSome st.scale st.nextId size hs h0 h1

/-- Claim C1 witness: on a freshly constructed dynamic slab, `palloc 16`
is served by the head slab (the first hit), which loses one block of
class 1. -/
theorem palloc_first_fit_or_grow_witness :
    dynamic_slab.palloc (dynamic_slab.init 1 true) 16 true =
      (some ⟨0, 1, 512⟩,
       { dynamic_slab.init 1 true with
           nodes := [] ++
             (⟨0, [512, 511, 256, 256, 128, 128, 64, 64, 32, 32]⟩ : slab) :: [] }) :=
  (palloc_first_fit_or_grow (dynamic_slab.init 1 true) 16 true
      (by decide) (by decide)).1
    [] ⟨0, [512, 512, 256, 256, 128, 128, 64, 64, 32, 32]⟩ [] ⟨0, 1, 512⟩
    ⟨0, [512, 511, 256, 256, 128, 128, 64, 64, 32, 32]⟩
    (by decide) (by decide) (by decide)

/-- Claim C2 counterexample: `palloc 5000` (a size above the largest
class `4096`) on a freshly built dynamic slab returns null, yet it is not
a no-op: the slab count grows from 1 to 2, refuting the claim that no
new slab is created and the state is unchanged. -/
theorem palloc_oversized_grows_counterexample :
    (dynamic_slab.palloc (dynamic_slab.init 1 true) 5000 true).1 = none ∧
    dynamic_slab.get_slab_count (dynamic_slab.init 1 true) = 1 ∧
    dynamic_slab.get_slab_count
      (dynamic_slab.palloc (dynamic_slab.init 1 true) 5000 true).2 = 2 := by
  refine ⟨by decide, by decide, by decide⟩

/-- Claim C2 amended: `palloc 0` and `palloc SIZE_MAX` are safe no-ops
returning null with the state unchanged; `palloc size` for
`s_{k-1} < size < SIZE_MAX` also returns null (the request is rejected,
no slab can serve it), but it is not a no-op: when the page mapping
succeeds the call prepends one fresh (useless) slab and increments the
slab count, and only when the page mapping fails is the state unchanged. -/
theorem palloc_oversized_rejected_but_grows (st : dynamic_slab) (size : Nat)
    (hgt : maxSizeClass < size) (hne : size ≠ SIZE_MAX) :
    dynamic_slab.palloc st size true =
      (none, { st with
                 nodes := slab.fresh st.scale st.nextId :: st.nodes,
                 node_count := st.node_count + 1,
                 nextId := st.nextId + 1 }) ∧
    dynamic_slab.palloc st size false = (none, st) ∧
    dynamic_slab.palloc st 0 true = (none, st) := by
  have hx := size_to_index_eq_none_of_gt size hgt
  have ht := tryAlloc_invalid size st.nodes hx
  have h0 : ¬ size = 0 := by unfold maxSizeClass at hgt; omega
  have hcond : ¬(size = 0 ∨ size = SIZE_MAX) := not_or.mpr ⟨h0, hne⟩
  have hfresh := slab.alloc_invalid (slab.fresh st.scale st.nextId) size hx
  refine ⟨?_, ?_, ?_⟩
  · simp [dynamic_slab.palloc, hcond, ht, hfresh]
  · simp [dynamic_slab.palloc, hcond, ht]
  · simp [dynamic_slab.palloc]

/-- Claim C2 amended witness: `palloc 5000` on a fresh dynamic slab
returns null and prepends one fresh slab. -/
theorem palloc_oversized_rejected_but_grows_witness :
    dynamic_slab.palloc (dynamic_slab.init 1 true) 5000 true =
      (none, { dynamic_slab.init 1 true with
                 nodes := slab.fresh (dynamic_slab.init 1 true).scale
                            (dynamic_slab.init 1 true).nextId ::
                          (dynamic_slab.init 1 true).nodes,
                 node_count := (dynamic_slab.init 1 true).node_count + 1,
                 nextId := (dynamic_slab.init 1 true).nextId + 1 }) :=
  (palloc_oversized_rejected_but_grows (dynamic_slab.init 1 true) 5000
      (by decide) (by decide)).1

/-- Claim C3: the claim describes `arena::alloc` advancing the cursor and
returning `base + used`, but the source's `arena::alloc` is a stub that
returns null for every request and never moves the cursor, even on an
arena with ample spare capacity (here capacity 4096, cursor 0,
request 8). -/
theorem arena_alloc_stub_null :
    arena.alloc ⟨some 0, 0, 4096⟩ 8 = (none, ⟨some 0, 0, 4096⟩) ∧
    ∀ (a : arena) (length : Nat), arena.alloc a length = (none, a) := by
  constructor
  · rfl
  · intro a length
    unfold arena.alloc
    split_ifs <;> rfl

/-- Claim C4: when `size` has a valid size class `i`, `calloc` is exactly
`palloc` followed — when the result is non-null — by zeroing
`index_to_size_class i` bytes (the rounded-up class size), and by zeroing
nothing when `palloc` failed. -/
theorem calloc_is_palloc_then_zero (st : dynamic_slab) (size i : Nat)
    (ok : Bool) (h : size_to_index size = some i) :
    dynamic_slab.calloc st size ok =
      ((dynamic_slab.palloc st size ok).1,
       (dynamic_slab.palloc st size ok).2,
       if (dynamic_slab.palloc st size ok).1.isSome then index_to_size_class i
       else 0) := by
  unfold dynamic_slab.calloc
  rcases hp : dynamic_slab.palloc st size ok with ⟨o, st2⟩
  cases o with
  | none => simp [hp]
  | some p => simp [hp, h]

/-- Claim C4 witness: `calloc 33` on a fresh dynamic slab zeroes the
class size 64, not the requested 33 bytes. -/
theorem calloc_is_palloc_then_zero_witness :
    (dynamic_slab.calloc (dynamic_slab.init 1 true) 33 true =
      ((dynamic_slab.palloc (dynamic_slab.init 1 true) 33 true).1,
       (dynamic_slab.palloc (dynamic_slab.init 1 true) 33 true).2,
       if (dynamic_slab.palloc (dynamic_slab.init 1 true) 33 true).1.isSome
       then index_to_size_class 3 else 0)) ∧
    index_to_size_class 3 = 64 ∧ (64 : Nat) ≠ 33 :=
  ⟨calloc_is_palloc_then_zero (dynamic_slab.init 1 true) 33 3 true (by decide),
   by decide, by decide⟩

/-- Claim C5: `free` with a null pointer or zero size is a no-op; with a
valid pointer and size, the first list node whose slab owns the pointer
absorbs the free (all other nodes and the node counter unchanged), and
when no node owns the pointer the free is silently discarded, leaving
the state unchanged. -/
theorem free_routes_to_first_owner (st : dynamic_slab) (p : Ptr) (size : Nat) :
    dynamic_slab.free st none size = st ∧
    dynamic_slab.free st (some p) 0 = st ∧
    (size ≠ 0 → size ≠ SIZE_MAX →
      ((∀ s ∈ st.nodes, s.owns p = false) →
          dynamic_slab.free st (some p) size = st) ∧
      (∀ pre n post, st.nodes = pre ++ n :: post →
          (∀ s ∈ pre, s.owns p = false) → n.owns p = true →
          dynamic_slab.free st (some p) size =
            { st with nodes := pre ++ n.free p size :: post })) := by
  refine ⟨rfl, ?_, ?_⟩
  · simp [dynamic_slab.free]
  · intro hs0 hsm
    have hcond : ¬(size = 0 ∨ size = SIZE_MAX) := not_or.mpr ⟨hs0, hsm⟩
    constructor
    · intro hnoown
      have hf := freeNodes_no_owner p size st.nodes hnoown
      simp [dynamic_slab.free, hcond, hf]
    · intro pre n post hnodes hpre hn
      have hf := freeNodes_first_owner p size n pre post hpre hn
      simp [dynamic_slab.free, hcond, hnodes, hf]

/-- Claim C5 witness: with two slabs on the list, freeing a pointer owned
by the second slab routes the free past the first node to the owner,
which regains one block of class 1. -/
theorem free_routes_to_first_owner_witness :
    dynamic_slab.free
        ⟨1, [⟨0, [0, 0, 0, 0, 0, 0, 0, 0, 0, 0]⟩,
             ⟨1, [0, 0, 0, 0, 0, 0, 0, 0, 0, 0]⟩], 2, 2⟩
        (some ⟨1, 1, 1⟩) 16 =
      { (⟨1, [⟨0, [0, 0, 0, 0, 0, 0, 0, 0, 0, 0]⟩,
              ⟨1, [0, 0, 0, 0, 0, 0, 0, 0, 0, 0]⟩], 2, 2⟩ : dynamic_slab) with
          nodes := [(⟨0, [0, 0, 0, 0, 0, 0, 0, 0, 0, 0]⟩ : slab)] ++
            slab.free ⟨1, [0, 0, 0, 0, 0, 0, 0, 0, 0, 0]⟩ ⟨1, 1, 1⟩ 16 :: [] } :=
  ((free_routes_to_first_owner
        ⟨1, [⟨0, [0, 0, 0, 0, 0, 0, 0, 0, 0, 0]⟩,
             ⟨1, [0, 0, 0, 0, 0, 0, 0, 0, 0, 0]⟩], 2, 2⟩
        ⟨1, 1, 1⟩ 16).2.2 (by decide) (by decide)).2
    [⟨0, [0, 0, 0, 0, 0, 0, 0, 0, 0, 0]⟩]
    ⟨1, [0, 0, 0, 0, 0, 0, 0, 0, 0, 0]⟩ [] (by decide) (by decide) (by decide)

/-- Claim C6: over any sequence of operations on a live dynamic slab, the
value returned by `get_slab_count` never decreases. -/
theorem slab_count_monotone (st : dynamic_slab) (ops : List dynamic_slab.Op) :
    dynamic_slab.get_slab_count st ≤
      dynamic_slab.get_slab_count (dynamic_slab.run st ops) := by
  induction ops generalizing st with
  | nil => exact le_refl _
  | cons op ops ih =>
    exact le_trans (step_node_count_le st op) (ih (dynamic_slab.step st op))

/-- Claim C7: the constructor stores `scale` in a `size_t` member, so the
`double` argument `0.5` is truncated to `0` rather than preserved, no
rejection of zero/negative scale happens, and the resulting dynamic slab
cannot serve even a 16-byte request (every per-class pool gets
`baseline · 0 = 0` blocks, including in every newly grown slab), which
contradicts the claim and the repository's own test that constructs
`dynamic_slab(0.01)` and requires `palloc(16)` to be non-null. -/
theorem scale_truncated_to_zero :
    size_t_of_double (1 / 2 : ℚ) = 0 ∧
    (dynamic_slab.init (1 / 2) true).scale = 0 ∧
    (dynamic_slab.palloc (dynamic_slab.init (1 / 2) true) 16 true).1 = none := by
  have h : size_t_of_double (1 / 2 : ℚ) = 0 := by
    unfold size_t_of_double
    norm_num
  have h2 : size_t_of_double (2⁻¹ : ℚ) = 0 := by
    unfold size_t_of_double
    norm_num
  have hinit : dynamic_slab.init (1 / 2) true =
      ⟨0, [slab.fresh 0 0], 1, 1⟩ := by
    simp [dynamic_slab.init, h, h2]
  refine ⟨h, by rw [hinit], by rw [hinit]; decide⟩

/-- Claim C8: `arena::reset` zeroes the cursor and returns 0, leaving the
`memory` and `capacity` fields untouched. -/
theorem arena_reset_frame (a : arena) :
    arena.reset a = (0, ⟨a.memory, 0, a.capacity⟩) ∧
    arena.get_used (arena.reset a).2 = 0 ∧
    arena.get_capacity (arena.reset a).2 = arena.get_capacity a :=
  ⟨rfl, rfl, rfl⟩

/-- Claim C9: both `palloc` and `free` reject `size == (size_t)-1`
(`SIZE_MAX`) up front: `palloc` returns null and `free` is a no-op, the
state unchanged in both cases, before any list traversal. -/
theorem size_max_rejected (st : dynamic_slab) (p : Ptr) (ok : Bool) :
    dynamic_slab.palloc st SIZE_MAX ok = (none, st) ∧
    dynamic_slab.free st (some p) SIZE_MAX = st := by
  constructor
  · simp [dynamic_slab.palloc]
  · simp [dynamic_slab.free]

/-- Claim C10: when every existing slab is exhausted and the page mapping
for the new node fails, `palloc` returns null and the dynamic slab is
exactly as before the call: same node list, same node counter. -/
theorem palloc_grow_failure_frame (st : dynamic_slab) (size : Nat)
    (h0 : size ≠ 0) (h1 : size ≠ SIZE_MAX)
    (hmiss : ∀ s ∈ st.nodes, (s.alloc size).1 = none) :
    dynamic_slab.palloc st size false = (none, st) := by
  have hcond : ¬(size = 0 ∨ size = SIZE_MAX) := not_or.mpr ⟨h0, h1⟩
  have ht := tryAlloc_none size st.nodes hmiss
  simp [dynamic_slab.palloc, hcond, ht]

/-- Claim C10 witness: on a dynamic slab whose single slab is exhausted,
`palloc 16` with a failing page mapping returns null and leaves the state
untouched. -/
theorem palloc_grow_failure_frame_witness :
    dynamic_slab.palloc ⟨1, [⟨0, [0, 0, 0, 0, 0, 0, 0, 0, 0, 0]⟩], 1, 1⟩
        16 false =
      (none, ⟨1, [⟨0, [0, 0, 0, 0, 0, 0, 0, 0, 0, 0]⟩], 1, 1⟩) :=
  palloc_grow_failure_frame ⟨1, [⟨0, [0, 0, 0, 0, 0, 0, 0, 0, 0, 0]⟩], 1, 1⟩
    16 (by decide) (by decide) (by decide)

end Palloc
